import Mathlib

/-!
Verification of the debasement-dashboard pipeline (src/main.py).

The script manipulates pandas DataFrames of dated floating-point values.
We embed the relevant fragment shallowly:

* dates are `Nat` in `yyyymmdd` form (totally ordered, year = `d / 10000`);
* float values are `FVal`: a finite rational, `inf`, `-inf`, or NaN, with
  IEEE-style `fadd`/`fmul`/`fdiv` (division by zero yields an infinity or
  NaN, never an error — exactly as numpy/pandas behaves);
* a series column is a `List (Nat × FVal)`;
* `mergeSeries` embeds `pd.concat(...).drop_duplicates(subset=['date'])
  .sort_values('date')` (line 120) — note pandas `drop_duplicates` keeps
  the FIRST occurrence;
* `afford` embeds `10000.0 / df['price']` followed by `.dropna()`
  (lines 129-130) — `dropna` removes NaN rows only, not infinities;
* `resampleYE agg` embeds `df.set_index('date').resample('YE').agg()`
  (lines 169, 186, 202, 221, ...): pandas emits one bin per calendar year
  from the first to the last year of the index, labels each bin with the
  year-end date, and fills empty bins with the aggregate of no data (NaN);
* `rebaseOpt` embeds `initial = col.iloc[0]; pct = col / initial * 100`
  (lines 153-154, 170-171, ...): `iloc[0]` on an empty frame raises
  IndexError, modelled as `none`; the script has no try/except around the
  per-series blocks, so `buildDashboard` propagates any `none` to the
  whole run;
* `combinedOrder` embeds the fixed sequence of `if ... in summary` blocks
  that populate `combined_data` (lines 216-248);
* `Frame`/`setCol`/`affordStage` embed in-place column assignment
  `df['new'] = ...` on a DataFrame, to reason about mutation of inputs.
-/

/-- IEEE-style float value: finite rational, infinities, or NaN. -/
inductive FVal where
  | num : ℚ → FVal
  | inf : FVal
  | ninf : FVal
  | nan : FVal
deriving DecidableEq, Repr

/-- NaN test, as used by pandas `dropna` / `skipna`. -/
def FVal.isNan : FVal → Bool
  | .nan => true
  | _ => false

/-- Floating-point division: finite/0 is an infinity (or NaN for 0/0), NaN propagates. -/
def fdiv : FVal → FVal → FVal
  | .nan, _ => .nan
  | .num _, .nan => .nan
  | .inf, .nan => .nan
  | .ninf, .nan => .nan
  | .num a, .num b =>
      if b = 0 then (if a = 0 then .nan else if 0 < a then .inf else .ninf)
      else .num (a / b)
  | .num _, .inf => .num 0
  | .num _, .ninf => .num 0
  | .inf, .num b => if 0 ≤ b then .inf else .ninf
  | .ninf, .num b => if 0 ≤ b then .ninf else .inf
  | .inf, .inf => .nan
  | .inf, .ninf => .nan
  | .ninf, .inf => .nan
  | .ninf, .ninf => .nan

/-- Floating-point multiplication: infinity times zero is NaN, NaN propagates. -/
def fmul : FVal → FVal → FVal
  | .nan, _ => .nan
  | .num _, .nan => .nan
  | .inf, .nan => .nan
  | .ninf, .nan => .nan
  | .num a, .num b => .num (a * b)
  | .num a, .inf => if a = 0 then .nan else if 0 < a then .inf else .ninf
  | .num a, .ninf => if a = 0 then .nan else if 0 < a then .ninf else .inf
  | .inf, .num b => if b = 0 then .nan else if 0 < b then .inf else .ninf
  | .ninf, .num b => if b = 0 then .nan else if 0 < b then .ninf else .inf
  | .inf, .inf => .inf
  | .inf, .ninf => .ninf
  | .ninf, .inf => .ninf
  | .ninf, .ninf => .inf

/-- Floating-point addition: opposite infinities give NaN, NaN propagates. -/
def fadd : FVal → FVal → FVal
  | .nan, _ => .nan
  | .num _, .nan => .nan
  | .inf, .nan => .nan
  | .ninf, .nan => .nan
  | .num a, .num b => .num (a + b)
  | .num _, .inf => .inf
  | .num _, .ninf => .ninf
  | .inf, .num _ => .inf
  | .ninf, .num _ => .ninf
  | .inf, .inf => .inf
  | .inf, .ninf => .nan
  | .ninf, .inf => .nan
  | .ninf, .ninf => .ninf

/-- The year-end marker date pandas uses to label a `resample('YE')` bin. -/
def yearEnd (y : Nat) : Nat := y * 10000 + 1231

/-- First value stored under a given date (pandas row lookup by date). -/
def findDate {α : Type} : List (Nat × α) → Nat → Option α
  | [], _ => none
  | (d, v) :: rest, t => if d = t then some v else findDate rest t

/-- Key order on dated rows (`sort_values('date')` sorts by this). -/
def keyLE {α : Type} (a b : Nat × α) : Prop := a.1 ≤ b.1

instance {α : Type} : DecidableRel (keyLE (α := α)) := fun a b => Nat.decLe a.1 b.1

instance {α : Type} : IsTotal (Nat × α) keyLE := ⟨fun a b => Nat.le_total a.1 b.1⟩

instance {α : Type} : IsTrans (Nat × α) keyLE := ⟨fun _ _ _ => Nat.le_trans⟩

/-- Keep the first row for each date, dropping later rows whose date was
already seen — the semantics of `drop_duplicates(subset=['date'])` with the
default `keep='first'`. -/
def dedupSeen {α : Type} (seen : List Nat) : List (Nat × α) → List (Nat × α)
  | [] => []
  | x :: xs => if x.1 ∈ seen then dedupSeen seen xs else x :: dedupSeen (x.1 :: seen) xs

/-- Deduplicate by date, first occurrence winning. -/
def dedupFirst {α : Type} (l : List (Nat × α)) : List (Nat × α) := dedupSeen [] l

/-- Line 120: `pd.concat(segs).drop_duplicates(subset=['date']).sort_values('date')`. -/
def mergeSeries {α : Type} (segs : List (List (Nat × α))) : List (Nat × α) :=
  List.insertionSort keyLE (dedupFirst segs.flatten)

/-- Lines 129-130: `df['afford'] = 10000.0 / df['price']` then `.dropna()`.
Rows are `(date, price, afford)`; `dropna` drops rows with a NaN in any column. -/
def afford (u : ℚ) (rows : List (Nat × FVal)) : List (Nat × FVal × FVal) :=
  (rows.map (fun r => (r.1, r.2, fdiv (FVal.num u) r.2))).filter
    (fun r => !(FVal.isNan r.2.1 || FVal.isNan r.2.2))

/-- The date filter `df[df['date'] >= cutoff]`. -/
def filterCutoff {α : Type} (c : Nat) (rows : List (Nat × α)) : List (Nat × α) :=
  rows.filter (fun r => c ≤ r.1)

/-- Years (as `date / 10000`) of all rows. -/
def yearsOf (rows : List (Nat × FVal)) : List Nat := rows.map (fun r => r.1 / 10000)

/-- First calendar year covered by the index. -/
def minYearOf (rows : List (Nat × FVal)) : Nat :=
  match yearsOf rows with
  | [] => 0
  | y :: ys => ys.foldl min y

/-- Last calendar year covered by the index. -/
def maxYearOf (rows : List (Nat × FVal)) : Nat :=
  match yearsOf rows with
  | [] => 0
  | y :: ys => ys.foldl max y

/-- Values of the rows falling in calendar year `y`, in index order. -/
def yearVals (rows : List (Nat × FVal)) (y : Nat) : List FVal :=
  (rows.filter (fun r => r.1 / 10000 == y)).map Prod.snd

/-- Mean with `skipna=True`: NaNs are ignored, an empty bin gives NaN. -/
def aggMean (vs : List FVal) : FVal :=
  if (vs.filter (fun v => !FVal.isNan v)).isEmpty then FVal.nan
  else
    fdiv ((vs.filter (fun v => !FVal.isNan v)).foldl fadd (FVal.num 0))
      (FVal.num (((vs.filter (fun v => !FVal.isNan v)).length : ℚ)))

/-- Last non-NaN entry of the bin (pandas `.last()`); NaN for an empty bin. -/
def aggLast (vs : List FVal) : FVal :=
  match (vs.filter (fun v => !FVal.isNan v)).getLast? with
  | none => FVal.nan
  | some v => v

/-- `df.set_index('date').resample('YE').agg(...)`: one bin per calendar year
from the first to the last year present, labelled with the year-end date;
empty interior bins receive the aggregate of no data. -/
def resampleYE (agg : List FVal → FVal) (rows : List (Nat × FVal)) : List (Nat × FVal) :=
  if rows.isEmpty then []
  else
    (List.range' (minYearOf rows) (maxYearOf rows + 1 - minYearOf rows)).map
      (fun z => (yearEnd z, agg (yearVals rows z)))

/-- Lines 153-154 (and 170-171, 187-188, 203-204, ...):
`initial = col.iloc[0]; pct = col / initial * 100`.  `iloc[0]` on an empty
column raises IndexError, modelled as `none`; division by a zero or NaN
baseline silently yields infinities/NaN, never an error. -/
def rebaseOpt (col : List (Nat × FVal)) : Option (List (Nat × FVal)) :=
  match col with
  | [] => none
  | (_, v0) :: _ =>
      some (col.map (fun r => (r.1, fmul (fdiv r.2 v0) (FVal.num 100))))

/-- The per-series plotting blocks run in sequence with no exception
handling; the first series whose rebase fails crashes the whole script. -/
def buildDashboard (c : Nat) : List (String × List (Nat × FVal)) →
    Option (List (String × List (Nat × FVal)))
  | [] => some []
  | (n, s) :: rest =>
      match rebaseOpt (filterCutoff c s) with
      | none => none
      | some r =>
          match buildDashboard c rest with
          | none => none
          | some rs => some ((n, r) :: rs)

/-- Lines 216-248: `combined_data` is populated by four fixed `if key in
summary` blocks, in the hard-coded order Big Mac, Gasoline, Median Home,
Inverted CPI — regardless of the order the inputs were supplied in. -/
def combinedOrder (summary : List String) : List String :=
  (if "bigmac" ∈ summary then ["Big Mac"] else []) ++
    (if "gasoline" ∈ summary then ["Gasoline"] else []) ++
      (if "median_home" ∈ summary then ["Median Home"] else []) ++
        (if "cpi" ∈ summary then ["Inverted CPI"] else [])

/-- A DataFrame bound to a Python variable: a date index plus named
value columns. -/
structure Frame where
  dates : List Nat
  cols : List (String × List FVal)
deriving DecidableEq, Repr

/-- Column read `df[name]` (empty if absent). -/
def getCol (f : Frame) (n : String) : List FVal :=
  match f.cols.find? (fun c => c.1 == n) with
  | none => []
  | some c => c.2

/-- Does the frame already have a column of this name? -/
def hasCol (f : Frame) (n : String) : Bool := (f.cols.find? (fun c => c.1 == n)).isSome

/-- In-place column assignment `df[name] = vals`: overwrites an existing
column or appends a new one.  This is a mutation of the frame the variable
is bound to — the post-state of the input variable. -/
def setCol (f : Frame) (n : String) (vs : List FVal) : Frame :=
  if hasCol f n then
    ⟨f.dates, f.cols.map (fun c => if c.1 == n then (c.1, vs) else c)⟩
  else ⟨f.dates, f.cols ++ [(n, vs)]⟩

/-- Line 129 as a state transformer on the variable `bigmac`:
`bigmac['bigmac_per_10k'] = 10000.0 / bigmac['price']`.  The result is the
state of the INPUT frame after the statement runs. -/
def affordStage (u : ℚ) (priceCol newCol : String) (f : Frame) : Frame :=
  setCol f newCol ((getCol f priceCol).map (fun p => fdiv (FVal.num u) p))

/-- Lines 150-154: the per-series Big Mac path rebases the raw-frequency
affordability column against its first point on/after the cutoff. -/
def bigmacPctRaw (c : Nat) (prices : List (Nat × FVal)) : Option (List (Nat × FVal)) :=
  rebaseOpt (filterCutoff c ((afford 10000 prices).map (fun r => (r.1, r.2.2))))

/-- Lines 218-223: the combined-table Big Mac path resamples the same
column to annual means first and rebases against the first annual mean. -/
def bigmacPctAnnual (c : Nat) (prices : List (Nat × FVal)) : Option (List (Nat × FVal)) :=
  rebaseOpt (resampleYE aggMean
    (filterCutoff c ((afford 10000 prices).map (fun r => (r.1, r.2.2)))))

/-- Lines 199-204, annual CPI values: filter to the cutoff, resample the
raw `value` column to annual means. -/
def cpiAnnualValue (c : Nat) (raw : List (Nat × ℚ)) : List (Nat × FVal) :=
  resampleYE aggMean ((filterCutoff c raw).map (fun r => (r.1, FVal.num r.2)))

/-- Lines 199-204, rebased CPI: the script inverts the CPI
(`inverted = 1 / value`) BEFORE resampling and rebasing, so the published
percentage series is the rebased annual mean of `1/value`, not of `value`. -/
def cpiRebasedInv (c : Nat) (raw : List (Nat × ℚ)) : Option (List (Nat × FVal)) :=
  rebaseOpt (resampleYE aggMean
    ((filterCutoff c raw).map (fun r => (r.1, fdiv (FVal.num 1) (FVal.num r.2)))))

/-- Running sum of a list of rationals (mean numerator). -/
def ratSum (l : List ℚ) : ℚ := l.foldl (fun a b => a + b) 0

/-! ## Lookup and merge lemmas -/

theorem findDate_append_some {α : Type} {A : List (Nat × α)} (B : List (Nat × α)) {d : Nat}
    {v : α} (h : findDate A d = some v) : findDate (A ++ B) d = some v := by
  induction A with
  | nil => simp [findDate] at h
  | cons a A ih =>
    rcases a with ⟨k, w⟩
    by_cases hk : k = d
    · simpa [findDate, hk] using h
    · simp only [findDate, hk, if_false, List.cons_append, if_neg hk] at h ⊢
      exact ih h

theorem findDate_append_none {α : Type} {A : List (Nat × α)} (B : List (Nat × α)) {d : Nat}
    (h : findDate A d = none) : findDate (A ++ B) d = findDate B d := by
  induction A with
  | nil => simp
  | cons a A ih =>
    rcases a with ⟨k, w⟩
    by_cases hk : k = d
    · simp [findDate, hk] at h
    · simp only [findDate, if_neg hk, List.cons_append] at h ⊢
      exact ih h

theorem dedupSeen_cons_mem {α : Type} {seen : List Nat} {x : Nat × α} {xs : List (Nat × α)}
    (h : x.1 ∈ seen) : dedupSeen seen (x :: xs) = dedupSeen seen xs := by
  simp [dedupSeen, h]

theorem dedupSeen_cons_not_mem {α : Type} {seen : List Nat} {x : Nat × α} {xs : List (Nat × α)}
    (h : x.1 ∉ seen) : dedupSeen seen (x :: xs) = x :: dedupSeen (x.1 :: seen) xs := by
  simp [dedupSeen, h]

theorem findDate_dedupSeen {α : Type} (l : List (Nat × α)) : ∀ (seen : List Nat) (d : Nat),
    d ∉ seen → findDate (dedupSeen seen l) d = findDate l d := by
  induction l with
  | nil => intro seen d _; rfl
  | cons x xs ih =>
    intro seen d hd
    by_cases hk : x.1 ∈ seen
    · have hkd : x.1 ≠ d := fun e => hd (e ▸ hk)
      rw [dedupSeen_cons_mem hk, ih seen d hd]
      rcases x with ⟨k, w⟩
      simp [findDate, hkd]
    · rw [dedupSeen_cons_not_mem hk]
      rcases x with ⟨k, w⟩
      by_cases hkd : k = d
      · simp [findDate, hkd]
      · simp only [findDate, if_neg hkd]
        exact ih (k :: seen) d (by
          simp only [List.mem_cons, not_or]
          exact ⟨Ne.symm hkd, hd⟩)

theorem dedupSeen_keys_not_seen {α : Type} (l : List (Nat × α)) : ∀ (seen : List Nat) (k : Nat),
    k ∈ (dedupSeen seen l).map Prod.fst → k ∉ seen := by
  induction l with
  | nil => intro seen k h; simp [dedupSeen] at h
  | cons x xs ih =>
    intro seen k h
    by_cases hx : x.1 ∈ seen
    · rw [dedupSeen_cons_mem hx] at h
      exact ih seen k h
    · rw [dedupSeen_cons_not_mem hx] at h
      simp only [List.map_cons, List.mem_cons] at h
      rcases h with rfl | h
      · exact hx
      · intro hk
        exact ih (x.1 :: seen) k h (List.mem_cons_of_mem _ hk)

theorem dedupSeen_keys_nodup {α : Type} (l : List (Nat × α)) : ∀ seen : List Nat,
    ((dedupSeen seen l).map Prod.fst).Nodup := by
  induction l with
  | nil => intro seen; simp [dedupSeen]
  | cons x xs ih =>
    intro seen
    by_cases hx : x.1 ∈ seen
    · rw [dedupSeen_cons_mem hx]; exact ih seen
    · rw [dedupSeen_cons_not_mem hx]
      simp only [List.map_cons, List.nodup_cons]
      refine ⟨fun h => ?_, ih _⟩
      exact dedupSeen_keys_not_seen xs (x.1 :: seen) x.1 h (List.mem_cons_self _ _)

theorem mem_of_findDate {α : Type} {l : List (Nat × α)} {d : Nat} {v : α}
    (h : findDate l d = some v) : (d, v) ∈ l := by
  induction l with
  | nil => simp [findDate] at h
  | cons x xs ih =>
    rcases x with ⟨k, w⟩
    by_cases hk : k = d
    · subst hk
      simp only [findDate, if_true, eq_self_iff_true, Option.some.injEq] at h
      rw [h]
      exact List.mem_cons_self _ _
    · simp only [findDate, if_neg hk] at h
      exact List.mem_cons_of_mem _ (ih h)

theorem findDate_of_mem_nodup {α : Type} {l : List (Nat × α)}
    (hnd : (l.map Prod.fst).Nodup) {d : Nat} {v : α} (h : (d, v) ∈ l) :
    findDate l d = some v := by
  induction l with
  | nil => simp at h
  | cons x xs ih =>
    rcases x with ⟨k, w⟩
    simp only [List.map_cons, List.nodup_cons] at hnd
    rcases List.mem_cons.mp h with he | hm
    · rw [show d = k from congrArg Prod.fst he, show v = w from congrArg Prod.snd he]
      simp [findDate]
    · by_cases hk : k = d
      · exfalso
        apply hnd.1
        subst hk
        exact List.mem_map_of_mem Prod.fst hm
      · simp only [findDate, if_neg hk]
        exact ih hnd.2 hm

theorem findDate_eq_none_iff {α : Type} {l : List (Nat × α)} {d : Nat} :
    findDate l d = none ↔ d ∉ l.map Prod.fst := by
  induction l with
  | nil => simp [findDate]
  | cons x xs ih =>
    rcases x with ⟨k, w⟩
    simp only [List.map_cons, List.mem_cons, not_or]
    by_cases hk : k = d
    · subst hk
      simp [findDate]
    · simp only [findDate, if_neg hk]
      rw [ih]
      constructor
      · intro h
        exact ⟨fun e => hk e.symm, h⟩
      · intro h
        exact h.2

theorem findDate_perm {α : Type} {l₁ l₂ : List (Nat × α)} (h : l₁.Perm l₂)
    (hnd : (l₁.map Prod.fst).Nodup) (d : Nat) : findDate l₁ d = findDate l₂ d := by
  have hnd₂ : (l₂.map Prod.fst).Nodup := ((h.map Prod.fst).nodup_iff).mp hnd
  cases e : findDate l₁ d with
  | some v =>
    exact (findDate_of_mem_nodup hnd₂ ((h.mem_iff).mp (mem_of_findDate e))).symm
  | none =>
    refine (findDate_eq_none_iff.mpr ?_).symm
    exact fun hm => findDate_eq_none_iff.mp e (((h.map Prod.fst).mem_iff).mpr hm)

/-! ## Claim C1: the multi-segment merge -/

/-- C1 counterexample: two segments of the same series share the date
1995-01-01 with values 2 (earlier-listed segment) and 3 (later-listed
segment).  `drop_duplicates` keeps the FIRST occurrence, so the merged
value is 2, not the later-listed 3 that the claim predicts. -/
theorem mergeSeries_keeps_earlier_cex :
    findDate (mergeSeries [[(19950101, (2 : ℚ))], [(19950101, (3 : ℚ))]]) 19950101 = some 2 ∧
      (2 : ℚ) ≠ 3 := by
  refine ⟨by decide, by norm_num⟩

/-- C1 (amended): merging two segments of the same logical series yields
their union deduplicated by date, sorted ascending by date with no
duplicate dates, and on every conflicting date the EARLIER-listed
segment's value wins (`drop_duplicates` keeps the first occurrence). -/
theorem mergeSeries_pair_spec {α : Type} (A B : List (Nat × α)) :
    (mergeSeries [A, B]).Sorted keyLE ∧
      ((mergeSeries [A, B]).map Prod.fst).Nodup ∧
      (∀ d v, findDate A d = some v → findDate (mergeSeries [A, B]) d = some v) ∧
      (∀ d, findDate A d = none → findDate (mergeSeries [A, B]) d = findDate B d) := by
  have hflat : ([A, B] : List (List (Nat × α))).flatten = A ++ B := by simp
  have hperm : (mergeSeries [A, B]).Perm (dedupSeen [] (A ++ B)) := by
    unfold mergeSeries dedupFirst
    rw [hflat]
    exact List.perm_insertionSort _ _
  have hnd0 : ((dedupSeen ([] : List Nat) (A ++ B)).map Prod.fst).Nodup :=
    dedupSeen_keys_nodup _ _
  have hnd : ((mergeSeries [A, B]).map Prod.fst).Nodup :=
    ((hperm.map Prod.fst).nodup_iff).mpr hnd0
  have hfd : ∀ d, findDate (mergeSeries [A, B]) d = findDate (A ++ B) d := by
    intro d
    rw [findDate_perm hperm hnd d, findDate_dedupSeen _ _ d (List.not_mem_nil d)]
  refine ⟨?_, hnd, ?_, ?_⟩
  · unfold mergeSeries
    exact List.sorted_insertionSort _ _
  · intro d v h
    rw [hfd d]
    exact findDate_append_some B h
  · intro d h
    rw [hfd d]
    exact findDate_append_none B h

/-! ## Claim C2: the affordability transform -/

theorem isNan_fdiv_num (u : ℚ) (hu : u ≠ 0) (v : FVal) :
    FVal.isNan (fdiv (FVal.num u) v) = FVal.isNan v := by
  cases v with
  | num b =>
    by_cases hb : b = 0
    · subst hb
      by_cases h2 : 0 < u
      · simp [fdiv, hu, h2, FVal.isNan]
      · simp [fdiv, hu, h2, FVal.isNan]
    · simp [fdiv, hb, FVal.isNan]
  | inf => rfl
  | ninf => rfl
  | nan => rfl

/-- C2 counterexample: a point with price exactly 0 is NOT dropped by the
affordability transform — `10000.0 / 0.0` is `inf`, which `dropna` keeps,
so the output still has one row where the claim predicts zero rows. -/
theorem afford_keeps_zero_price_cex :
    afford 10000 [(20200101, FVal.num 0)] = [(20200101, FVal.num 0, FVal.inf)] ∧
      [(20200101, FVal.num 0, FVal.inf)] ≠ ([] : List (Nat × FVal × FVal)) := by
  refine ⟨by decide, by decide⟩

/-- C2 (amended): for unit amount `u > 0` the transform keeps exactly the
points whose price is not NaN (missing prices are dropped; zero prices are
kept, with value `inf`), and every surviving point with finite nonzero
price `q` carries value `u / q`. -/
theorem afford_spec (u : ℚ) (hu : 0 < u) (rows : List (Nat × FVal)) :
    (afford u rows).length = (rows.filter (fun r => !FVal.isNan r.2)).length ∧
      ∀ d p v, (d, p, v) ∈ afford u rows →
        (∀ q : ℚ, p = FVal.num q → q ≠ 0 → v = FVal.num (u / q)) ∧
        (p = FVal.num 0 → v = FVal.inf) := by
  have hu' : u ≠ 0 := ne_of_gt hu
  constructor
  · unfold afford
    rw [List.filter_map, List.length_map]
    congr 1
    apply List.filter_congr
    intro r _
    simp only [Function.comp_apply]
    rw [isNan_fdiv_num u hu' r.2, Bool.or_self]
  · intro d p v hm
    unfold afford at hm
    have hm' := List.mem_of_mem_filter hm
    rcases List.mem_map.mp hm' with ⟨r, _, he⟩
    simp only [Prod.mk.injEq] at he
    obtain ⟨-, rfl, rfl⟩ := he
    constructor
    · intro q hq hq0
      rw [hq]
      simp [fdiv, hq0]
    · intro h0
      rw [h0]
      simp [fdiv, hu', hu]

/-- C2 witness: one point with price 5/2 and no NaN, the surviving count
matches. -/
theorem afford_spec_witness :
    (afford 10000 [(20190101, FVal.num (5 / 2))]).length =
      ([(20190101, FVal.num (5 / 2))].filter (fun r => !FVal.isNan r.2)).length :=
  (afford_spec 10000 (by norm_num) _).1

/-! ## Claim C3: rebase failure behaviour -/

/-- C3 counterexample: a baseline of exactly 0 does NOT fail — the rebase
succeeds, producing NaN at the baseline and `inf` elsewhere; and one
series with no data on/after the cutoff aborts the whole run (`iloc[0]`
raises an uncaught IndexError) even though the other series is fine, so a
per-series failure IS fatal. -/
theorem rebase_zero_baseline_and_fatal_cex :
    rebaseOpt (filterCutoff 19950101 [(19950101, FVal.num 0), (19960101, FVal.num 5)]) =
      some [(19950101, FVal.nan), (19960101, FVal.inf)] ∧
      buildDashboard 19950101
        [("gasoline", [(19950101, FVal.num 1)]), ("bigmac", [(19900101, FVal.num 2)])] =
        none := by
  refine ⟨by decide, by decide⟩

/-- C3 (amended): when a series has no point on/after the cutoff, its
`iloc[0]` fails and — there being no per-series exception handling — the
whole dashboard run fails, regardless of the other series; whereas a
baseline of exactly zero does not fail at all: the rebase still returns a
series. -/
theorem rebase_failure_spec (c : Nat) (pre post : List (String × List (Nat × FVal)))
    (n : String) (s : List (Nat × FVal)) (h : filterCutoff c s = []) :
    buildDashboard c (pre ++ (n, s) :: post) = none ∧
      ∀ (t : List (Nat × FVal)) (d : Nat) (rest : List (Nat × FVal)),
        filterCutoff c t = (d, FVal.num 0) :: rest →
          (rebaseOpt (filterCutoff c t)).isSome = true := by
  constructor
  · induction pre with
    | nil =>
      simp [buildDashboard, h, rebaseOpt]
    | cons a pre ih =>
      rcases a with ⟨m, t⟩
      cases hre : rebaseOpt (filterCutoff c t) with
      | none => simp [buildDashboard, hre]
      | some r => simp [buildDashboard, hre, ih]
  · intro t d rest ht
    rw [ht]
    rfl

/-- C3 witness: the gasoline series survives the cutoff but the bigmac
series does not, and the whole run dies. -/
theorem rebase_failure_spec_witness :
    buildDashboard 19950101
      ([("gasoline", [(19950101, FVal.num 1)])] ++
        ("bigmac", [(19900101, FVal.num 2)]) :: []) = none :=
  (rebase_failure_spec 19950101 [("gasoline", [(19950101, FVal.num 1)])] []
    "bigmac" [(19900101, FVal.num 2)] (by decide)).1

/-! ## Resampling lemmas -/

theorem findDate_range (g : Nat → FVal) : ∀ (n lo y : Nat), lo ≤ y → y < lo + n →
    findDate ((List.range' lo n).map (fun z => (yearEnd z, g z))) (yearEnd y) = some (g y) := by
  intro n
  induction n with
  | zero =>
    intro lo y h1 h2
    omega
  | succ n ih =>
    intro lo y h1 h2
    rw [List.range'_succ]
    simp only [List.map_cons]
    by_cases he : lo = y
    · subst he
      simp [findDate]
    · have hne : yearEnd lo ≠ yearEnd y := by
        unfold yearEnd
        omega
      simp only [findDate, if_neg hne]
      exact ih (lo + 1) y (by omega) (by omega)

theorem resampleYE_eq (agg : List FVal → FVal) (rows : List (Nat × FVal)) (h : rows ≠ []) :
    resampleYE agg rows =
      (List.range' (minYearOf rows) (maxYearOf rows + 1 - minYearOf rows)).map
        (fun z => (yearEnd z, agg (yearVals rows z))) := by
  have hne : rows.isEmpty = false := by
    cases rows with
    | nil => exact absurd rfl h
    | cons a t => rfl
  unfold resampleYE
  rw [hne]
  rfl

theorem findDate_resampleYE (agg : List FVal → FVal) (rows : List (Nat × FVal))
    (h : rows ≠ []) (y : Nat) (h1 : minYearOf rows ≤ y) (h2 : y ≤ maxYearOf rows) :
    findDate (resampleYE agg rows) (yearEnd y) = some (agg (yearVals rows y)) := by
  rw [resampleYE_eq agg rows h]
  exact findDate_range _ _ _ _ h1 (by omega)

theorem foldl_fadd_num (qs : List ℚ) : ∀ a : ℚ,
    (qs.map FVal.num).foldl fadd (FVal.num a) =
      FVal.num (qs.foldl (fun x y => x + y) a) := by
  induction qs with
  | nil => intro a; rfl
  | cons q qs ih =>
    intro a
    simp only [List.map_cons, List.foldl_cons]
    rw [show fadd (FVal.num a) (FVal.num q) = FVal.num (a + q) from rfl]
    exact ih (a + q)

theorem aggMean_map_num (qs : List ℚ) (h : qs ≠ []) :
    aggMean (qs.map FVal.num) = FVal.num (ratSum qs / (qs.length : ℚ)) := by
  have hfilt : (qs.map FVal.num).filter (fun v => !FVal.isNan v) = qs.map FVal.num :=
    List.filter_eq_self.mpr (by
      intro a ha
      rcases List.mem_map.mp ha with ⟨q, _, rfl⟩
      rfl)
  have hlen : qs.length ≠ 0 := fun e => h (List.length_eq_zero.mp e)
  have hlenq : (qs.length : ℚ) ≠ 0 := Nat.cast_ne_zero.mpr hlen
  have hmapne : (qs.map FVal.num).isEmpty = false := by
    cases qs with
    | nil => exact absurd rfl h
    | cons q qs => rfl
  unfold aggMean
  rw [hfilt, hmapne]
  simp only [Bool.false_eq_true, if_false]
  rw [foldl_fadd_num qs 0, List.length_map]
  show fdiv (FVal.num (ratSum qs)) (FVal.num (qs.length : ℚ)) = _
  simp only [fdiv, if_neg hlenq]

/-! ## Claim C4: the mean-policy annual resampler -/

/-- C4 counterexample: input has points in 1995 and 1997 only, yet the
resampler emits a (NaN-valued) 1996 row — pandas `resample('YE')` bins the
whole span, it does not skip empty years. -/
theorem resample_mean_gap_year_cex :
    (yearEnd 1996, FVal.nan) ∈
      resampleYE aggMean [(19950601, FVal.num 1), (19970601, FVal.num 3)] ∧
      List.filter (fun r => r.1 / 10000 == 1996)
        [(19950601, FVal.num 1), (19970601, FVal.num 3)] = [] := by
  refine ⟨by decide, by decide⟩

/-- C4 (amended): for every year in the covered span (first year of the
index through last), the resampler emits the bin labelled with that year's
year-end date; an empty year's bin holds NaN (not: no row), and a year
with finite values `qs` holds exactly their arithmetic mean. -/
theorem resample_mean_spec (rows : List (Nat × FVal)) (hne : rows ≠ []) (y : Nat)
    (h1 : minYearOf rows ≤ y) (h2 : y ≤ maxYearOf rows) :
    (yearVals rows y = [] →
      findDate (resampleYE aggMean rows) (yearEnd y) = some FVal.nan) ∧
      ∀ qs : List ℚ, qs ≠ [] → yearVals rows y = qs.map FVal.num →
        findDate (resampleYE aggMean rows) (yearEnd y) =
          some (FVal.num (ratSum qs / (qs.length : ℚ))) := by
  constructor
  · intro h0
    rw [findDate_resampleYE aggMean rows hne y h1 h2, h0]
    rfl
  · intro qs hqs hv
    rw [findDate_resampleYE aggMean rows hne y h1 h2, hv, aggMean_map_num qs hqs]

/-- C4 witness: two points in 1995, values 2 and 4; the 1995 bin holds 3. -/
theorem resample_mean_spec_witness :
    findDate (resampleYE aggMean [(19950601, FVal.num 2), (19950701, FVal.num 4)])
      (yearEnd 1995) = some (FVal.num 3) := by
  have h := (resample_mean_spec [(19950601, FVal.num 2), (19950701, FVal.num 4)] (by decide)
    1995 (by decide) (by decide)).2 [2, 4] (by decide) (by decide)
  rw [h]
  norm_num [ratSum]

/-! ## Claim C5: the last-policy annual resampler -/

theorem getLast?_map_snd : ∀ l : List (Nat × FVal),
    (l.map Prod.snd).getLast? = l.getLast?.map Prod.snd := by
  intro l
  induction l with
  | nil => rfl
  | cons a t ih =>
    cases t with
    | nil => rfl
    | cons b t' =>
      simp only [List.map_cons] at ih ⊢
      rw [List.getLast?_cons_cons, List.getLast?_cons_cons, ih]

theorem getLast_key_max : ∀ l : List (Nat × FVal), l.Pairwise keyLE →
    ∀ p : Nat × FVal, l.getLast? = some p → ∀ q ∈ l, q.1 ≤ p.1 := by
  intro l
  induction l with
  | nil =>
    intro _ p hp
    simp at hp
  | cons a t ih =>
    intro h p hp q hq
    rcases List.pairwise_cons.mp h with ⟨ha, ht⟩
    cases t with
    | nil =>
      have hpa : p = a := by simpa using hp.symm
      rcases List.mem_cons.mp hq with rfl | h'
      · rw [hpa]
      · simp at h'
    | cons b t' =>
      rw [List.getLast?_cons_cons] at hp
      rcases List.mem_cons.mp hq with rfl | h'
      · exact ha p (List.mem_of_mem_getLast? (by simpa using hp))
      · exact ih ht p hp q h'

/-- C5 counterexample: a single point dated 2020-03-15 resamples (last
policy) to a bin labelled 2020-12-31, the year-end marker — NOT the
literal date of the contributing point the claim asserts. -/
theorem resample_last_date_cex :
    resampleYE aggLast [(20200315, FVal.num 5)] = [(20201231, FVal.num 5)] ∧
      (20201231 : Nat) ≠ 20200315 := by
  refine ⟨by decide, by decide⟩

/-- C5 (amended): for a chronologically sorted, NaN-free series and a year
with at least one point, the last-policy bin for that year carries the
value of the chronologically last point of the year, but it is labelled
with the year-end marker date, not that point's literal date. -/
theorem resample_last_spec (rows : List (Nat × FVal)) (hs : rows.Pairwise keyLE)
    (hnn : ∀ p ∈ rows, FVal.isNan p.2 = false) (hne : rows ≠ []) (y : Nat)
    (h1 : minYearOf rows ≤ y) (h2 : y ≤ maxYearOf rows) (p : Nat × FVal)
    (hp : (rows.filter (fun r => r.1 / 10000 == y)).getLast? = some p) :
    findDate (resampleYE aggLast rows) (yearEnd y) = some p.2 ∧
      ∀ q ∈ rows.filter (fun r => r.1 / 10000 == y), q.1 ≤ p.1 := by
  constructor
  · rw [findDate_resampleYE aggLast rows hne y h1 h2]
    have hfilt : ((rows.filter (fun r => r.1 / 10000 == y)).map Prod.snd).filter
        (fun v => !FVal.isNan v) =
        (rows.filter (fun r => r.1 / 10000 == y)).map Prod.snd :=
      List.filter_eq_self.mpr (by
        intro v hv
        rcases List.mem_map.mp hv with ⟨r, hr, rfl⟩
        rw [hnn r (List.mem_of_mem_filter hr)]
        rfl)
    unfold aggLast yearVals
    rw [hfilt, getLast?_map_snd, hp]
    rfl
  · intro q hq
    exact getLast_key_max _ (List.Pairwise.sublist (List.filter_sublist _) hs) p hp q hq

/-- C5 witness: points on 2020-03-15 and 2020-07-20; the 2020 bin is
labelled with the year-end date and carries the later point's value 7. -/
theorem resample_last_spec_witness :
    findDate (resampleYE aggLast [(20200315, FVal.num 5), (20200720, FVal.num 7)])
      (yearEnd 2020) = some (FVal.num 7) :=
  (resample_last_spec [(20200315, FVal.num 5), (20200720, FVal.num 7)] (by decide)
    (by decide) (by decide) 2020 (by decide) (by decide) (20200720, FVal.num 7) (by decide)).1

/-! ## Claim C6: the baseline point rebases to exactly 100 -/

/-- C6: if the first point of the rebased column (the located baseline,
`iloc[0]` of the cutoff-filtered series) holds a finite nonzero value,
then the output point at the baseline date is exactly 100. -/
theorem rebase_baseline_is_100 (col : List (Nat × FVal)) (d0 : Nat) (q : ℚ)
    (h : col.head? = some (d0, FVal.num q)) (hq : q ≠ 0) :
    ∃ out, rebaseOpt col = some out ∧ findDate out d0 = some (FVal.num 100) := by
  cases col with
  | nil => simp at h
  | cons a rest =>
    have ha : a = (d0, FVal.num q) := by simpa using h
    subst ha
    refine ⟨_, rfl, ?_⟩
    simp only [List.map_cons]
    have hv : fmul (fdiv (FVal.num q) (FVal.num q)) (FVal.num 100) = FVal.num 100 := by
      simp only [fdiv, if_neg hq, fmul, div_self hq, one_mul]
    simp [findDate, hv]

/-- C6 witness: baseline value 5 at 1995-01-01 rebases to exactly 100. -/
theorem rebase_baseline_is_100_witness :
    ∃ out, rebaseOpt [(19950101, FVal.num 5)] = some out ∧
      findDate out 19950101 = some (FVal.num 100) :=
  rebase_baseline_is_100 [(19950101, FVal.num 5)] 19950101 5 rfl (by norm_num)

/-! ## Claim C7: order of columns in the combined table -/

/-- C7 counterexample: with exactly gasoline, cpi and median_home present
(supplied in that order), the combined table's columns come out in the
hard-coded order Gasoline, Median Home, Inverted CPI — not in the
supplied order Gasoline, Inverted CPI, Median Home that the claim
predicts. -/
theorem combined_order_cex :
    combinedOrder ["gasoline", "cpi", "median_home"] =
      ["Gasoline", "Median Home", "Inverted CPI"] ∧
      (["Gasoline", "Median Home", "Inverted CPI"] : List String) ≠
        ["Gasoline", "Inverted CPI", "Median Home"] := by
  refine ⟨by decide, by decide⟩

/-- C7 (amended): the combined table's column order is the hard-coded
source order Big Mac, Gasoline, Median Home, Inverted CPI restricted to
the present series; it depends only on WHICH series are present, never on
the order they were supplied in. -/
theorem combined_order_fixed (l₁ l₂ : List String) (h : l₁.Perm l₂) :
    combinedOrder l₁ = combinedOrder l₂ ∧
      (combinedOrder l₁).Sublist ["Big Mac", "Gasoline", "Median Home", "Inverted CPI"] := by
  constructor
  · simp only [combinedOrder, h.mem_iff]
  · unfold combinedOrder
    by_cases h1 : "bigmac" ∈ l₁ <;> by_cases h2 : "gasoline" ∈ l₁ <;>
      by_cases h3 : "median_home" ∈ l₁ <;> by_cases h4 : "cpi" ∈ l₁ <;>
        simp only [h1, h2, h3, h4, if_true, if_false] <;> decide

/-- C7 witness: the same three series supplied in two different orders
produce the same column order. -/
theorem combined_order_fixed_witness :
    combinedOrder ["gasoline", "cpi", "median_home"] =
      combinedOrder ["median_home", "gasoline", "cpi"] :=
  (combined_order_fixed ["gasoline", "cpi", "median_home"]
    ["median_home", "gasoline", "cpi"] (by decide)).1

/-! ## Claim C8: the end-to-end CPI scenario -/

theorem range'_two (s : Nat) : List.range' s 2 = [s, s + 1] := rfl

/-- C8 counterexample: on the claim's exact input the code rebases the
INVERTED series `1/value`, whose 2021 annual mean relative to the 2020
annual mean of `1/260, 1/262` is `(1/270) / ((1/260 + 1/262)/2) * 100 =
681200/7047 ≈ 96.67` — not the claimed `270/261*100 ≈ 103.45`. -/
theorem cpi_scenario_cex :
    cpiRebasedInv 20200101 [(20200101, 260), (20200601, 262), (20210101, 270)] =
      some [(20201231, FVal.num 100), (20211231, FVal.num (681200 / 7047))] ∧
      FVal.num ((681200 : ℚ) / 7047) ≠ FVal.num ((270 : ℚ) / 261 * 100) := by
  constructor
  · unfold cpiRebasedInv
    rw [show (filterCutoff 20200101
        [((20200101 : Nat), (260 : ℚ)), (20200601, 262), (20210101, 270)]).map
        (fun r => (r.1, fdiv (FVal.num 1) (FVal.num r.2))) =
        [(20200101, FVal.num (1 / 260)), (20200601, FVal.num (1 / 262)),
          (20210101, FVal.num (1 / 270))] from rfl]
    rw [resampleYE_eq _ _ (by decide)]
    rw [show minYearOf [(20200101, FVal.num (1 / 260)), (20200601, FVal.num (1 / 262)),
        (20210101, FVal.num (1 / 270))] = 2020 from by decide]
    rw [show maxYearOf [(20200101, FVal.num (1 / 260)), (20200601, FVal.num (1 / 262)),
        (20210101, FVal.num (1 / 270))] = 2021 from by decide]
    rw [show (2021 + 1 - 2020 : Nat) = 2 from rfl, range'_two,
      show (2020 + 1 : Nat) = 2021 from rfl]
    simp only [List.map_cons, List.map_nil]
    rw [show yearVals [(20200101, FVal.num (1 / 260)), (20200601, FVal.num (1 / 262)),
        (20210101, FVal.num (1 / 270))] 2020 = [FVal.num (1 / 260), FVal.num (1 / 262)]
        from rfl]
    rw [show yearVals [(20200101, FVal.num (1 / 260)), (20200601, FVal.num (1 / 262)),
        (20210101, FVal.num (1 / 270))] 2021 = [FVal.num (1 / 270)] from rfl]
    norm_num [aggMean, rebaseOpt, fdiv, fadd, fmul, yearEnd, FVal.isNan]
  · simp only [ne_eq, FVal.num.injEq]
    norm_num

/-- C8 (amended): on the claim's input the annual VALUE series is indeed
`(2020, 261), (2021, 270)` (labelled with year-end dates), but the rebased
series the pipeline publishes is the rebased annual mean of the inverted
series: `(2020, 100), (2021, 681200/7047 ≈ 96.67)`. -/
theorem cpi_scenario_amended :
    cpiAnnualValue 20200101 [(20200101, 260), (20200601, 262), (20210101, 270)] =
      [(20201231, FVal.num 261), (20211231, FVal.num 270)] ∧
      cpiRebasedInv 20200101 [(20200101, 260), (20200601, 262), (20210101, 270)] =
        some [(20201231, FVal.num 100), (20211231, FVal.num (681200 / 7047))] := by
  constructor
  · unfold cpiAnnualValue
    rw [show (filterCutoff 20200101
        [((20200101 : Nat), (260 : ℚ)), (20200601, 262), (20210101, 270)]).map
        (fun r => (r.1, FVal.num r.2)) =
        [(20200101, FVal.num 260), (20200601, FVal.num 262), (20210101, FVal.num 270)]
        from rfl]
    rw [resampleYE_eq _ _ (by decide)]
    rw [show minYearOf [(20200101, FVal.num 260), (20200601, FVal.num 262),
        (20210101, FVal.num 270)] = 2020 from by decide]
    rw [show maxYearOf [(20200101, FVal.num 260), (20200601, FVal.num 262),
        (20210101, FVal.num 270)] = 2021 from by decide]
    rw [show (2021 + 1 - 2020 : Nat) = 2 from rfl, range'_two,
      show (2020 + 1 : Nat) = 2021 from rfl]
    simp only [List.map_cons, List.map_nil]
    rw [show yearVals [(20200101, FVal.num 260), (20200601, FVal.num 262),
        (20210101, FVal.num 270)] 2020 = [FVal.num 260, FVal.num 262] from rfl]
    rw [show yearVals [(20200101, FVal.num 260), (20200601, FVal.num 262),
        (20210101, FVal.num 270)] 2021 = [FVal.num 270] from rfl]
    norm_num [aggMean, fdiv, fadd, yearEnd, FVal.isNan]
  · unfold cpiRebasedInv
    rw [show (filterCutoff 20200101
        [((20200101 : Nat), (260 : ℚ)), (20200601, 262), (20210101, 270)]).map
        (fun r => (r.1, fdiv (FVal.num 1) (FVal.num r.2))) =
        [(20200101, FVal.num (1 / 260)), (20200601, FVal.num (1 / 262)),
          (20210101, FVal.num (1 / 270))] from rfl]
    rw [resampleYE_eq _ _ (by decide)]
    rw [show minYearOf [(20200101, FVal.num (1 / 260)), (20200601, FVal.num (1 / 262)),
        (20210101, FVal.num (1 / 270))] = 2020 from by decide]
    rw [show maxYearOf [(20200101, FVal.num (1 / 260)), (20200601, FVal.num (1 / 262)),
        (20210101, FVal.num (1 / 270))] = 2021 from by decide]
    rw [show (2021 + 1 - 2020 : Nat) = 2 from rfl, range'_two,
      show (2020 + 1 : Nat) = 2021 from rfl]
    simp only [List.map_cons, List.map_nil]
    rw [show yearVals [(20200101, FVal.num (1 / 260)), (20200601, FVal.num (1 / 262)),
        (20210101, FVal.num (1 / 270))] 2020 = [FVal.num (1 / 260), FVal.num (1 / 262)]
        from rfl]
    rw [show yearVals [(20200101, FVal.num (1 / 260)), (20200601, FVal.num (1 / 262)),
        (20210101, FVal.num (1 / 270))] 2021 = [FVal.num (1 / 270)] from rfl]
    norm_num [aggMean, rebaseOpt, fdiv, fadd, fmul, yearEnd, FVal.isNan]
/-! ## Claim C9: column assignment mutates the input frame -/

theorem find?_replace (n m : String) (vs : List FVal) :
    ∀ cols : List (String × List FVal),
      (cols.map (fun c => if c.1 == n then (c.1, vs) else c)).find? (fun c => c.1 == m) =
        (cols.find? (fun c => c.1 == m)).map (fun c => if c.1 == n then (c.1, vs) else c) := by
  intro cols
  induction cols with
  | nil => rfl
  | cons c cs ih =>
    have hkey : ((if c.1 == n then (c.1, vs) else c) : String × List FVal).1 = c.1 := by
      split <;> rfl
    by_cases hm : c.1 = m
    · have hb : (c.1 == m) = true := beq_iff_eq.mpr hm
      simp only [List.map_cons, List.find?_cons, hkey, hb, Option.map_some']
    · have hb : (c.1 == m) = false := beq_eq_false_iff_ne.mpr hm
      simp only [List.map_cons, List.find?_cons, hkey, hb]
      exact ih

theorem find?_cols_append_none {p : String × List FVal → Bool}
    {cols : List (String × List FVal)} (l₂ : List (String × List FVal))
    (h : cols.find? p = none) : (cols ++ l₂).find? p = l₂.find? p := by
  induction cols with
  | nil => rfl
  | cons c cs ih =>
    cases hp : p c with
    | true =>
      simp only [List.find?_cons, hp] at h
      exact absurd h (by simp)
    | false =>
      simp only [List.find?_cons, hp] at h
      simp only [List.cons_append, List.find?_cons, hp]
      exact ih h

theorem find?_cols_append_some {p : String × List FVal → Bool}
    {cols : List (String × List FVal)} {c : String × List FVal}
    (l₂ : List (String × List FVal)) (h : cols.find? p = some c) :
    (cols ++ l₂).find? p = some c := by
  induction cols with
  | nil => simp at h
  | cons a cs ih =>
    cases hp : p a with
    | true =>
      simp only [List.find?_cons, hp] at h
      simp only [List.cons_append, List.find?_cons, hp]
      exact h
    | false =>
      simp only [List.find?_cons, hp] at h
      simp only [List.cons_append, List.find?_cons, hp]
      exact ih h

theorem setCol_dates (f : Frame) (n : String) (vs : List FVal) :
    (setCol f n vs).dates = f.dates := by
  unfold setCol
  split <;> rfl

theorem getCol_setCol_ne (f : Frame) (n m : String) (vs : List FVal) (hmn : m ≠ n) :
    getCol (setCol f n vs) m = getCol f m := by
  unfold setCol
  by_cases hc : hasCol f n = true
  · rw [if_pos hc]
    unfold getCol
    rw [find?_replace]
    cases e : f.cols.find? (fun c => c.1 == m) with
    | none => rfl
    | some c =>
      have hcm : c.1 = m := by
        have h2 := List.find?_some e
        simpa using h2
      have hcn : (c.1 == n) = false := beq_eq_false_iff_ne.mpr (hcm ▸ hmn)
      simp [Option.map_some', hcn]
      rw [if_neg (by rw [hcm]; exact hmn)]
  · rw [if_neg hc]
    unfold getCol
    cases e : f.cols.find? (fun c => c.1 == m) with
    | none =>
      rw [find?_cols_append_none _ e]
      have hb : (n == m) = false := beq_eq_false_iff_ne.mpr (Ne.symm hmn)
      simp only [List.find?_cons, hb, List.find?_nil]
    | some c =>
      rw [find?_cols_append_some _ e]

theorem getCol_setCol_self (f : Frame) (n : String) (vs : List FVal) :
    getCol (setCol f n vs) n = vs := by
  unfold setCol
  by_cases hc : hasCol f n = true
  · rw [if_pos hc]
    unfold hasCol at hc
    rcases Option.isSome_iff_exists.mp hc with ⟨c, e⟩
    unfold getCol
    rw [find?_replace, e]
    have hcn : (c.1 == n) = true := by
      have h2 := List.find?_some e
      simpa using h2
    simp [Option.map_some', hcn]
    rw [if_pos (beq_iff_eq.mp hcn)]
  · rw [if_neg hc]
    unfold hasCol at hc
    have e : f.cols.find? (fun c => c.1 == n) = none :=
      Option.not_isSome_iff_eq_none.mp (by simpa using hc)
    unfold getCol
    rw [find?_cols_append_none _ e]
    simp only [List.find?_cons, beq_self_eq_true]

/-- C9 counterexample: running the affordability stage on a one-column
frame leaves the variable bound to a DIFFERENT frame — the derived column
has been added in place, so the input is not unchanged. -/
theorem affordStage_mutates_input_cex :
    affordStage 10000 "price" "bigmac_per_10k"
      ⟨[19950101], [("price", [FVal.num 5])]⟩ ≠
      (⟨[19950101], [("price", [FVal.num 5])]⟩ : Frame) := by
  decide

/-- C9 (amended): the affordability stage mutates its input frame only by
writing the derived column: the date index and the price column are
unchanged, and the new column holds exactly `unit_amount / price`
pointwise. -/
theorem affordStage_mutation_spec (u : ℚ) (pc nc : String) (f : Frame) (h : pc ≠ nc) :
    (affordStage u pc nc f).dates = f.dates ∧
      getCol (affordStage u pc nc f) pc = getCol f pc ∧
      getCol (affordStage u pc nc f) nc =
        (getCol f pc).map (fun p => fdiv (FVal.num u) p) := by
  unfold affordStage
  exact ⟨setCol_dates _ _ _, getCol_setCol_ne _ _ _ _ h, getCol_setCol_self _ _ _⟩

/-- C9 witness: on a concrete one-column frame the price column survives
the stage unchanged. -/
theorem affordStage_mutation_spec_witness :
    getCol (affordStage 10000 "price" "bigmac_per_10k"
        ⟨[19950101], [("price", [FVal.num 5])]⟩) "price" =
      getCol ⟨[19950101], [("price", [FVal.num 5])]⟩ "price" :=
  (affordStage_mutation_spec 10000 "price" "bigmac_per_10k"
    ⟨[19950101], [("price", [FVal.num 5])]⟩ (by decide)).2.1

/-! ## Claim C10: per-series vs combined-table Big Mac percentages -/

/-- C10: with prices 2 and 4 inside the baseline year 1995 and price 4 at
1996-01-01, the per-series (raw-frequency) path puts the 1996 point at
50% of its baseline while the combined (annual-mean) path puts 1996 at
200/3 ≈ 66.7% — the two published percentages for the same year differ,
because the raw path divides by the first affordability point and the
combined path divides by the 1995 annual mean. -/
theorem bigmac_paths_differ :
    (bigmacPctRaw 19950101
        [(19950101, FVal.num 2), (19950701, FVal.num 4), (19960101, FVal.num 4)]).bind
      (fun out => findDate out 19960101) = some (FVal.num 50) ∧
      (bigmacPctAnnual 19950101
          [(19950101, FVal.num 2), (19950701, FVal.num 4), (19960101, FVal.num 4)]).bind
        (fun out => findDate out (yearEnd 1996)) = some (FVal.num (200 / 3)) ∧
      FVal.num 50 ≠ FVal.num ((200 : ℚ) / 3) := by
  refine ⟨?_, ?_, ?_⟩
  · unfold bigmacPctRaw
    rw [show filterCutoff 19950101
        ((afford 10000 [(19950101, FVal.num 2), (19950701, FVal.num 4),
          (19960101, FVal.num 4)]).map (fun r => (r.1, r.2.2))) =
        [(19950101, FVal.num (10000 / 2)), (19950701, FVal.num (10000 / 4)),
          (19960101, FVal.num (10000 / 4))] from rfl]
    rw [show rebaseOpt [(19950101, FVal.num (10000 / 2)), (19950701, FVal.num (10000 / 4)),
        (19960101, FVal.num (10000 / 4))] =
        some ([(19950101, FVal.num (10000 / 2)), (19950701, FVal.num (10000 / 4)),
          (19960101, FVal.num (10000 / 4))].map
          (fun r => (r.1, fmul (fdiv r.2 (FVal.num (10000 / 2))) (FVal.num 100))))
        from rfl]
    simp only [Option.some_bind, List.map_cons, List.map_nil]
    norm_num [findDate, fdiv, fmul]
  · unfold bigmacPctAnnual
    rw [show filterCutoff 19950101
        ((afford 10000 [(19950101, FVal.num 2), (19950701, FVal.num 4),
          (19960101, FVal.num 4)]).map (fun r => (r.1, r.2.2))) =
        [(19950101, FVal.num (10000 / 2)), (19950701, FVal.num (10000 / 4)),
          (19960101, FVal.num (10000 / 4))] from rfl]
    rw [resampleYE_eq _ _ (by decide)]
    rw [show minYearOf [(19950101, FVal.num (10000 / 2)), (19950701, FVal.num (10000 / 4)),
        (19960101, FVal.num (10000 / 4))] = 1995 from by decide]
    rw [show maxYearOf [(19950101, FVal.num (10000 / 2)), (19950701, FVal.num (10000 / 4)),
        (19960101, FVal.num (10000 / 4))] = 1996 from by decide]
    rw [show (1996 + 1 - 1995 : Nat) = 2 from rfl, range'_two,
      show (1995 + 1 : Nat) = 1996 from rfl]
    simp only [List.map_cons, List.map_nil]
    rw [show yearVals [(19950101, FVal.num (10000 / 2)), (19950701, FVal.num (10000 / 4)),
        (19960101, FVal.num (10000 / 4))] 1995 =
        [FVal.num (10000 / 2), FVal.num (10000 / 4)] from rfl]
    rw [show yearVals [(19950101, FVal.num (10000 / 2)), (19950701, FVal.num (10000 / 4)),
        (19960101, FVal.num (10000 / 4))] 1996 = [FVal.num (10000 / 4)] from rfl]
    norm_num [aggMean, rebaseOpt, findDate, fdiv, fadd, fmul, yearEnd, FVal.isNan]
  · simp only [ne_eq, FVal.num.injEq]
    norm_num

/-- C1 witness: with disjoint dates the merge of two concrete segments
looks the second segment's point up through the merged series. -/
theorem mergeSeries_pair_spec_witness :
    findDate (mergeSeries [[(19950101, (2 : ℚ))], [(19960101, (7 : ℚ))]]) 19960101 =
      some 7 :=
  ((mergeSeries_pair_spec [(19950101, (2 : ℚ))] [(19960101, (7 : ℚ))]).2.2.2
    19960101 rfl).trans rfl
